import Mathlib

/-!
Verification of the DevBootstrap command-execution and installer-orchestration
core. Definitions below are shallow embeddings of the Go source:
external effects (subprocesses, the terminal, the prompter, platform strategies)
are modelled as explicit behaviour oracles passed in as arguments, and every
side effect the code performs is recorded in an explicit event list or state
record so that theorems can speak about it.
-/

set_option autoImplicit false

namespace DevBootstrap

/-! ## Domain value objects (internal/domain/valueobject) -/

/-- AppStatus from app_status.go: NotInstalled, Installed, UpdateAvailable. -/
inductive AppStatus where
  | notInstalled
  | installed
  | updateAvailable
deriving DecidableEq, Repr

/-- AppStatus.IsInstalled: true for Installed and UpdateAvailable. -/
def AppStatus.isInstalled : AppStatus → Bool
  | .installed => true
  | .updateAvailable => true
  | .notInstalled => false

/-- AppID is a wrapper around a string; we identify it with its String() value. -/
abbrev AppID := String

/-- AppTag from app_tag.go (a string enumeration). -/
inductive AppTag where
  | app
  | config
  | editor
  | shell
  | container
  | font
deriving DecidableEq, Repr

/-- OSType from os_type.go. -/
inductive OSType where
  | macOS
  | ubuntu
  | debian
  | linuxOther
  | unsupported
deriving DecidableEq, Repr

/-- OSType.String from os_type.go. -/
def OSType.toName : OSType → String
  | .macOS => "macOS"
  | .ubuntu => "Ubuntu"
  | .debian => "Debian"
  | .linuxOther => "Linux"
  | .unsupported => "Unsupported"

/-- OSType.IsDebian: Ubuntu or Debian. -/
def OSType.isDebian : OSType → Bool
  | .ubuntu => true
  | .debian => true
  | _ => false

/-- OSType.IsMacOS. -/
def OSType.isMacOS : OSType → Bool
  | .macOS => true
  | _ => false

/-- The slice of entity.Platform used by the factory and strategies. -/
structure Platform where
  os : OSType
  homeDir : String
  username : String
deriving DecidableEq, Repr

/-- Application entity (internal/domain/entity): identity part only; status and
version live in the repository model. -/
structure Application where
  id : AppID
  name : String
  description : String
  tags : List AppTag
deriving DecidableEq, Repr

/-! ## Domain results (internal/domain/result) -/

/-- InstallResult from result/install_result.go. -/
structure InstallResult where
  success : Bool
  message : String
  version : String
  path : String
  errors : List String
  warnings : List String
deriving DecidableEq, Repr

/-- result.NewSuccess. -/
def InstallResult.newSuccess (message : String) : InstallResult :=
  { success := true, message := message, version := "", path := "",
    errors := [], warnings := [] }

/-- result.NewFailure. -/
def InstallResult.newFailure (message : String) (errors : List String) : InstallResult :=
  { success := false, message := message, version := "", path := "",
    errors := errors, warnings := [] }

/-- InstallResult.WithVersion. -/
def InstallResult.withVersion (r : InstallResult) (v : String) : InstallResult :=
  { r with version := v }

/-- UninstallResult from result/uninstall_result.go. -/
structure UninstallResult where
  success : Bool
  message : String
  errors : List String
  warnings : List String
deriving DecidableEq, Repr

/-- result.NewUninstallSuccess. -/
def UninstallResult.newSuccess (message : String) : UninstallResult :=
  { success := true, message := message, errors := [], warnings := [] }

/-- result.NewUninstallFailure. -/
def UninstallResult.newFailure (message : String) (errors : List String) : UninstallResult :=
  { success := false, message := message, errors := errors, warnings := [] }

/-! ## Process runner: port types (internal/port/secondary/command_executor.go) -/

/-- Go time.Duration is an integer count of nanoseconds. -/
def timeSecond : Nat := 1000000000

/-- time.Minute in nanoseconds. -/
def timeMinute : Nat := 60 * timeSecond

/-- CommandResult from command_executor.go. The error value is modelled by
an explicit error kind. -/
inductive GoError where
  | exitError (code : Int)
  | startError (msg : String)
  | deadlineExceeded
deriving DecidableEq, Repr

/-- The string rendering of the modelled Go errors (err.Error()). -/
def GoError.message : GoError → String
  | .exitError code => "exit status " ++ toString code
  | .startError msg => msg
  | .deadlineExceeded => "context deadline exceeded"

/-- CommandResult struct: success flag, captured output, exit code, error. -/
structure CommandResult where
  success : Bool
  stdout : String
  stderr : String
  exitCode : Int
  error : Option GoError
deriving DecidableEq, Repr

/-- CommandOptions from command_executor.go, plus the SkipDryRun flag.
The SkipDryRun field itself is modelled from the spec: its declaration is not
in the sources at hand, but shell_executor.go reads options.SkipDryRun to let a
spec opt out of the dry-run bypass, and GetCommandVersion passes
WithSkipDryRun. -/
structure CommandOptions where
  description : String
  useSudo : Bool
  sudoNonInteractive : Bool
  env : List (String × String)
  workingDir : String
  timeout : Nat
  interactive : Bool
  skipDryRun : Bool
deriving DecidableEq, Repr

/-- The functional options (WithDescription, WithSudo, ...) as a closed
datatype. -/
inductive CommandOption where
  | withDescription (desc : String)
  | withSudo
  | withSudoNonInteractive
  | withEnv (env : List (String × String))
  | withWorkingDir (dir : String)
  | withTimeout (timeout : Nat)
  | withInteractive
  | withSkipDryRun
deriving DecidableEq, Repr

/-- The action of one functional option on CommandOptions, following each
constructor in command_executor.go. WithSudoNonInteractive sets both Sudo and
SudoNonInteractive. WithSkipDryRun is modelled from the spec (see
CommandOptions.skipDryRun). -/
def CommandOptions.apply (o : CommandOptions) : CommandOption → CommandOptions
  | .withDescription desc => { o with description := desc }
  | .withSudo => { o with useSudo := true }
  | .withSudoNonInteractive => { o with useSudo := true, sudoNonInteractive := true }
  | .withEnv env => { o with env := env }
  | .withWorkingDir dir => { o with workingDir := dir }
  | .withTimeout timeout => { o with timeout := timeout }
  | .withInteractive => { o with interactive := true }
  | .withSkipDryRun => { o with skipDryRun := true }

/-- The initial options value built at the top of ShellExecutor.Execute:
all zero values except Timeout, which is 2 * time.Minute. -/
def execDefaultOptions : CommandOptions :=
  { description := "", useSudo := false, sudoNonInteractive := false, env := [],
    workingDir := "", timeout := 2 * timeMinute, interactive := false,
    skipDryRun := false }

/-- Folding the variadic opts over the defaults, as the for-loop at the top of
Execute does. -/
def applyOptions (opts : List CommandOption) : CommandOptions :=
  opts.foldl CommandOptions.apply execDefaultOptions

/-- Behaviour of the external world for one subprocess invocation: whether the
program can be started at all, how long it runs (none means it never exits on
its own), its exit code and its output streams. -/
structure ProcessBehavior where
  startOk : Bool
  startErrMsg : String
  duration : Option Nat
  exitCode : Int
  stdout : String
  stderr : String
deriving DecidableEq, Repr

/-- Whether a started process hits the context deadline: it never exits, or
runs longer than the timeout. -/
def procTimedOut (timeout : Nat) (proc : ProcessBehavior) : Bool :=
  match proc.duration with
  | none => true
  | some d => timeout < d

/-- strings.Join(args, " "). -/
def joinArgs (args : List String) : String :=
  String.intercalate " " args

/-- Reporter calls observable during command execution
(secondary.ProgressReporter). -/
inductive ReportEvent where
  | progress (msg : String)
  | clearProgress
  | info (msg : String)
  | warning (msg : String)
  | step (i n : Nat) (msg : String)
  | successLine (msg : String)
  | sectionHeader (title : String)
deriving DecidableEq, Repr

/-- ShellExecutor state (internal/adapter/secondary/executor/shell_executor.go):
the dry-run flag and the SUDO_ASKPASS path set by SetSudoAskpass. -/
structure ShellExecutor where
  dryRun : Bool
  sudoAskpass : String
deriving DecidableEq, Repr

/-- Everything observable about one Execute call: the returned CommandResult,
the reporter calls, whether a subprocess was actually spawned, whether the
terminal-attached branch was taken, and the final argument vector. -/
structure ExecOutcome where
  result : CommandResult
  events : List ReportEvent
  ran : Bool
  interactiveMode : Bool
  finalArgs : List String
deriving DecidableEq, Repr

/-- ShellExecutor.Execute, shell_executor.go lines 37-161. The euid argument
models os.Geteuid(), and proc models the spawned process. -/
def ShellExecutor.execute (e : ShellExecutor) (euid : Nat) (args : List String)
    (opts : List CommandOption) (proc : ProcessBehavior) : ExecOutcome :=
  let options := applyOptions opts
  let args :=
    if options.useSudo && euid != 0 then
      if options.sudoNonInteractive then "sudo" :: "-n" :: args
      else if e.sudoAskpass != "" then "sudo" :: "-A" :: args
      else "sudo" :: args
    else args
  let cmdStr := joinArgs args
  let ev0 : List ReportEvent :=
    if options.description != "" then [.progress options.description] else []
  if e.dryRun && !options.skipDryRun then
    { result := { success := true, stdout := "", stderr := "", exitCode := 0, error := none },
      events := ev0 ++ [.clearProgress, .info ("[DRY RUN] " ++ cmdStr)],
      ran := false, interactiveMode := false, finalArgs := args }
  else
    let interactiveMode :=
      options.interactive || (options.useSudo && !options.sudoNonInteractive && e.sudoAskpass == "")
    let timedOut := proc.startOk && procTimedOut options.timeout proc
    let result : CommandResult :=
      if timedOut then
        { success := false, stdout := "", stderr := "Command timed out",
          exitCode := -1, error := some .deadlineExceeded }
      else if !proc.startOk then
        if interactiveMode then
          { success := false, stdout := "", stderr := proc.startErrMsg,
            exitCode := -1, error := some (.startError proc.startErrMsg) }
        else
          { success := false, stdout := "", stderr := "",
            exitCode := -1, error := some (.startError proc.startErrMsg) }
      else if proc.exitCode != 0 then
        if interactiveMode then
          { success := false, stdout := "",
            stderr := GoError.message (.exitError proc.exitCode),
            exitCode := proc.exitCode, error := some (.exitError proc.exitCode) }
        else
          { success := false, stdout := proc.stdout, stderr := proc.stderr,
            exitCode := proc.exitCode, error := some (.exitError proc.exitCode) }
      else
        if interactiveMode then
          { success := true, stdout := "", stderr := "", exitCode := 0, error := none }
        else
          { success := true, stdout := proc.stdout.trim, stderr := "",
            exitCode := 0, error := none }
    { result := result, events := ev0 ++ [.clearProgress],
      ran := true, interactiveMode := interactiveMode, finalArgs := args }

/-! ## Legacy runner (internal/runner, the pre-hexagonal Runner) -/

/-- Result from runner/result.go. -/
structure RunnerResult where
  success : Bool
  stdout : String
  stderr : String
  exitCode : Int
  error : Option GoError
deriving DecidableEq, Repr

/-- runner.SuccessResult. -/
def RunnerResult.ok (stdout : String) : RunnerResult :=
  { success := true, stdout := stdout, stderr := "", exitCode := 0, error := none }

/-- runner.FailureResult. -/
def RunnerResult.fail (stderr : String) (exitCode : Int) (err : GoError) : RunnerResult :=
  { success := false, stdout := "", stderr := stderr, exitCode := exitCode,
    error := some err }

/-- runOptions from runner/runner.go: description, sudo flag, env, cwd,
timeout. -/
structure RunnerOptions where
  description : String
  useSudo : Bool
  env : List (String × String)
  cwd : String
  timeout : Nat
deriving DecidableEq, Repr

/-- The legacy functional options (WithDescription, WithSudo, WithEnv,
WithCwd, WithTimeout). -/
inductive RunnerOption where
  | withDescription (desc : String)
  | withSudo
  | withEnv (env : List (String × String))
  | withCwd (cwd : String)
  | withTimeout (timeout : Nat)
deriving DecidableEq, Repr

/-- Action of one legacy option on runOptions. -/
def RunnerOptions.apply (o : RunnerOptions) : RunnerOption → RunnerOptions
  | .withDescription desc => { o with description := desc }
  | .withSudo => { o with useSudo := true }
  | .withEnv env => { o with env := env }
  | .withCwd cwd => { o with cwd := cwd }
  | .withTimeout timeout => { o with timeout := timeout }

/-- Runner.Run seeds runOptions with timeout: 2 * time.Minute. -/
def runnerRunDefaults : RunnerOptions :=
  { description := "", useSudo := false, env := [], cwd := "",
    timeout := 2 * timeMinute }

/-- Runner.RunInteractive seeds a zero runOptions value: in particular it has
no timeout and never creates a context. -/
def runnerInteractiveDefaults : RunnerOptions :=
  { description := "", useSudo := false, env := [], cwd := "", timeout := 0 }

/-- Runner state from runner/runner.go. -/
structure LegacyRunner where
  dryRun : Bool
deriving DecidableEq, Repr

/-- Observable outcome of Runner.Run. -/
structure RunnerRunOutcome where
  result : RunnerResult
  events : List ReportEvent
  ran : Bool
  finalArgs : List String
deriving DecidableEq, Repr

/-- Runner.Run, runner.go lines 73-137: captured execution with a
context timeout, a plain sudo argument when requested, and a dry-run
bypass that returns SuccessResult("") without spawning anything. -/
def LegacyRunner.run (r : LegacyRunner) (euid : Nat) (args : List String)
    (opts : List RunnerOption) (proc : ProcessBehavior) : RunnerRunOutcome :=
  let options := opts.foldl RunnerOptions.apply runnerRunDefaults
  let args := if options.useSudo && euid != 0 then "sudo" :: args else args
  let ev0 : List ReportEvent :=
    if options.description != "" then [.progress options.description] else []
  if r.dryRun then
    { result := RunnerResult.ok "",
      events := ev0 ++ [.clearProgress, .info ("[DRY RUN] " ++ joinArgs args)],
      ran := false, finalArgs := args }
  else
    let timedOut := proc.startOk && procTimedOut options.timeout proc
    let result : RunnerResult :=
      if timedOut then RunnerResult.fail "Command timed out" (-1) .deadlineExceeded
      else if !proc.startOk then
        RunnerResult.fail "" (-1) (.startError proc.startErrMsg)
      else if proc.exitCode != 0 then
        RunnerResult.fail proc.stderr proc.exitCode (.exitError proc.exitCode)
      else RunnerResult.ok proc.stdout.trim
    { result := result, events := ev0 ++ [.clearProgress],
      ran := true, finalArgs := args }

/-- Runner.RunInteractive, runner.go lines 140-184: the subprocess is attached
to the terminal, there is no context and no timeout, and the function returns a
bare Bool. The value none models the call never returning because the
subprocess never exits. -/
def LegacyRunner.runInteractive (r : LegacyRunner) (euid : Nat)
    (args : List String) (opts : List RunnerOption) (proc : ProcessBehavior) :
    Option Bool :=
  let options := opts.foldl RunnerOptions.apply runnerInteractiveDefaults
  let _args := if options.useSudo && euid != 0 then "sudo" :: args else args
  if r.dryRun then some true
  else if !proc.startOk then some false
  else
    match proc.duration with
    | none => none
    | some _ => some (proc.exitCode == 0)

/-! ## Primary port options (internal/port/primary) -/

/-- DockerOptions from the primary port. -/
structure DockerOptions where
  installCompose : Bool
  addUserToDockerGroup : Bool
  startOnBoot : Bool
deriving DecidableEq, Repr

/-- InstallOptions from the primary port (application-specific option bags
other than Docker are irrelevant to the claims and carried opaquely). -/
structure InstallOptions where
  dryRun : Bool
  noInteraction : Bool
  dockerOptions : Option DockerOptions
deriving DecidableEq, Repr

/-- UninstallOptions from the primary port. -/
structure UninstallOptions where
  dryRun : Bool
  noInteraction : Bool
  removeConfig : Bool
  removeCache : Bool
  removeData : Bool
  removeImages : Bool
  removeVolumes : Bool
  removeOhMyZsh : Bool
  removePlugins : Bool
  removeZshrc : Bool
deriving DecidableEq, Repr

/-! ## Go map with string keys, as used for the batch result maps -/

/-- A Go map[string]V modelled as an association list where assignment
overwrites the existing entry for a key. -/
def mapInsert {α : Type} (m : List (AppID × α)) (k : AppID) (v : α) :
    List (AppID × α) :=
  match m with
  | [] => [(k, v)]
  | (k0, v0) :: rest =>
    if k0 = k then (k, v) :: rest else (k0, v0) :: mapInsert rest k v

/-- Lookup in the Go map model. -/
def mapLookup {α : Type} (m : List (AppID × α)) (k : AppID) : Option α :=
  match m with
  | [] => none
  | (k0, v0) :: rest => if k0 = k then some v0 else mapLookup rest k

/-! ## Use cases (internal/application/usecase) -/

/-- Observable effects of the use cases: reporter lines, step counters,
prompter questions, strategy invocations and repository updates. -/
inductive UCEvent where
  | warning (msg : String)
  | info (msg : String)
  | step (i n : Nat) (msg : String)
  | confirmAsked (question : String)
  | warnNotInstalled (name : String)
  | installInvoked (id : AppID)
  | uninstallInvoked (id : AppID)
  | statusUpdated (id : AppID) (status : AppStatus) (version : String)
deriving DecidableEq, Repr

/-- Behaviour oracle for one resolved installer strategy, as seen by the use
cases: the CheckStatus answer (status, version, optional error), and the
outcomes of Install and Uninstall — an error value models the Go (nil, err)
return, a result models (res, nil). -/
structure StrategyBehavior where
  checkStatus : AppStatus × String × Option String
  installOutcome : Except String InstallResult
  uninstallOutcome : Except String UninstallResult

/-- Environment of the use cases: the repository GetByID lookup, the factory
GetInstaller resolution, and the prompter Confirm answers (a function of the
question and its default). -/
structure UseCaseEnv where
  repo : AppID → Option Application
  getInstaller : AppID → Except String StrategyBehavior
  confirmAnswer : String → Bool → Bool

/-- InstallApplicationUseCase.Execute, part of the usecase package
(lines 44-86): repository lookup, strategy resolution, status re-check,
interactive reinstall confirmation, installation, status update. -/
def installExecute (env : UseCaseEnv) (appID : AppID) (opts : InstallOptions) :
    Except String InstallResult × List UCEvent :=
  match env.repo appID with
  | none => (.error ("application not found: " ++ appID), [])
  | some app =>
    match env.getInstaller appID with
    | .error e => (.error ("no installer for " ++ appID ++ ": " ++ e), [])
    | .ok inst =>
      let (status, version, checkErr) := inst.checkStatus
      let ev0 : List UCEvent :=
        match checkErr with
        | some m => [.warning ("Could not check status: " ++ m)]
        | none => []
      let proceed : List UCEvent → Except String InstallResult × List UCEvent :=
        fun ev =>
          match inst.installOutcome with
          | .error e => (.error e, ev ++ [.installInvoked appID])
          | .ok r =>
            let ev2 :=
              if r.success then
                ev ++ [.installInvoked appID, .statusUpdated appID .installed r.version]
              else ev ++ [.installInvoked appID]
            (.ok r, ev2)
      if status.isInstalled && !opts.noInteraction then
        let ev1 := ev0 ++ [.info (app.name ++ " est deja installe: " ++ version),
                           .confirmAsked "Voulez-vous reinstaller?"]
        if !(env.confirmAnswer "Voulez-vous reinstaller?" false) then
          (.ok ((InstallResult.newSuccess "Deja installe").withVersion version), ev1)
        else proceed ev1
      else proceed ev0

/-- UninstallApplicationUseCase.Execute (lines 145-192): repository lookup,
strategy resolution, status check, not-installed early success, interactive
confirmation, uninstallation, status update. -/
def uninstallExecute (env : UseCaseEnv) (appID : AppID)
    (opts : UninstallOptions) : Except String UninstallResult × List UCEvent :=
  match env.repo appID with
  | none => (.error ("application not found: " ++ appID), [])
  | some app =>
    match env.getInstaller appID with
    | .error e => (.error ("no installer for " ++ appID ++ ": " ++ e), [])
    | .ok inst =>
      let (status, _version, checkErr) := inst.checkStatus
      let ev0 : List UCEvent :=
        match checkErr with
        | some m => [.warning ("Could not check status: " ++ m)]
        | none => []
      if !status.isInstalled then
        (.ok (UninstallResult.newSuccess "Application non installee"),
         ev0 ++ [.warnNotInstalled app.name])
      else
        let proceed : List UCEvent → Except String UninstallResult × List UCEvent :=
          fun ev =>
            match inst.uninstallOutcome with
            | .error e => (.error e, ev ++ [.uninstallInvoked appID])
            | .ok r =>
              let ev2 :=
                if r.success then
                  ev ++ [.uninstallInvoked appID, .statusUpdated appID .notInstalled ""]
                else ev ++ [.uninstallInvoked appID]
              (.ok r, ev2)
        if !opts.noInteraction then
          let q := "Etes-vous sur de vouloir desinstaller " ++ app.name ++ "?"
          let ev1 := ev0 ++ [.confirmAsked q]
          if !(env.confirmAnswer q false) then
            (.ok (UninstallResult.newSuccess "Desinstallation annulee"), ev1)
          else proceed ev1
        else proceed ev0

/-- The loop body of InstallApplicationUseCase.ExecuteMultiple: iterate in
order, emit a step notification, call Execute, convert an error into a
failure entry of the result map. -/
def installLoop (env : UseCaseEnv) (opts : InstallOptions) (total : Nat) :
    Nat → List AppID → List (AppID × InstallResult) → List UCEvent →
    List (AppID × InstallResult) × List UCEvent
  | _, [], m, evs => (m, evs)
  | i, appID :: rest, m, evs =>
    let stepEv := UCEvent.step (i + 1) total ("Installation de " ++ appID)
    match installExecute env appID opts with
    | (.error e, ev) =>
      installLoop env opts total (i + 1) rest
        (mapInsert m appID (InstallResult.newFailure e []))
        (evs ++ stepEv :: ev)
    | (.ok r, ev) =>
      installLoop env opts total (i + 1) rest (mapInsert m appID r)
        (evs ++ stepEv :: ev)

/-- InstallApplicationUseCase.ExecuteMultiple (lines 89-108). -/
def installExecuteMultiple (env : UseCaseEnv) (appIDs : List AppID)
    (opts : InstallOptions) : List (AppID × InstallResult) × List UCEvent :=
  installLoop env opts appIDs.length 0 appIDs [] []

/-- The loop body of UninstallApplicationUseCase.ExecuteMultiple. -/
def uninstallLoop (env : UseCaseEnv) (opts : UninstallOptions) (total : Nat) :
    Nat → List AppID → List (AppID × UninstallResult) → List UCEvent →
    List (AppID × UninstallResult) × List UCEvent
  | _, [], m, evs => (m, evs)
  | i, appID :: rest, m, evs =>
    let stepEv := UCEvent.step (i + 1) total ("Desinstallation de " ++ appID)
    match uninstallExecute env appID opts with
    | (.error e, ev) =>
      uninstallLoop env opts total (i + 1) rest
        (mapInsert m appID (UninstallResult.newFailure e []))
        (evs ++ stepEv :: ev)
    | (.ok r, ev) =>
      uninstallLoop env opts total (i + 1) rest (mapInsert m appID r)
        (evs ++ stepEv :: ev)

/-- UninstallApplicationUseCase.ExecuteMultiple (lines 195-214). -/
def uninstallExecuteMultiple (env : UseCaseEnv) (appIDs : List AppID)
    (opts : UninstallOptions) : List (AppID × UninstallResult) × List UCEvent :=
  uninstallLoop env opts appIDs.length 0 appIDs [] []

/-! ## Strategy factory and catalog (internal/config/container.go) -/

/-- The concrete strategies the factory can return, as a closed tag set. -/
inductive StrategyTag where
  | dockerMacOS
  | dockerUbuntu
  | vscodeStrategy
deriving DecidableEq, Repr

/-- docker.NewStrategy (internal/installer/docker/docker_installer.go):
macOS strategy, Ubuntu/Debian strategy, or an unsupported-platform error. -/
def dockerNewStrategy (platform : Platform) : Except String StrategyTag :=
  if platform.os.isMacOS then .ok .dockerMacOS
  else if platform.os.isDebian then .ok .dockerUbuntu
  else .error ("unsupported platform for Docker: " ++ platform.os.toName)

/-- vscode.NewVSCodeStrategy (internal/installer/vscode): errors unless the
platform is macOS or Debian-family. -/
def vscodeNewStrategy (platform : Platform) : Except String StrategyTag :=
  if !platform.os.isMacOS && !platform.os.isDebian then
    .error ("unsupported platform for VSCode: " ++ platform.os.toName)
  else .ok .vscodeStrategy

/-- InstallerFactory.GetInstaller (container.go lines 172-192): only "docker"
and "vscode" are wired; every other identifier gets an unknown-application
error. -/
def factoryGetInstaller (platform : Platform) (appID : AppID) :
    Except String StrategyTag :=
  if appID = "docker" then dockerNewStrategy platform
  else if appID = "vscode" then vscodeNewStrategy platform
  else .error ("unknown application: " ++ appID)

/-- Container.initializeApps (container.go lines 113-136): the seven
applications registered in the in-memory repository at startup. -/
def catalogApps : List Application :=
  [ { id := "docker", name := "Docker",
      description := "Plateforme de conteneurisation",
      tags := [.app, .container] },
    { id := "vscode", name := "Visual Studio Code",
      description := "Editeur de code source leger et puissant",
      tags := [.app, .editor] },
    { id := "neovim", name := "Neovim",
      description := "Editeur de texte moderne",
      tags := [.app, .editor] },
    { id := "neovim-config", name := "Neovim Config",
      description := "Configuration et plugins pour Neovim",
      tags := [.config] },
    { id := "zsh", name := "Zsh",
      description := "Shell Z moderne",
      tags := [.app, .shell] },
    { id := "oh-my-zsh", name := "Oh My Zsh",
      description := "Framework de configuration pour Zsh avec plugins",
      tags := [.config] },
    { id := "nerd-font", name := "Nerd Font",
      description := "Polices avec icones pour terminal",
      tags := [.font] } ]

/-- MemoryRepository.GetByID over the catalog built by initializeApps. -/
def catalogGetByID (appID : AppID) : Option Application :=
  catalogApps.find? (fun app => app.id = appID)

/-- The use-case environment wired by NewContainer: the in-memory repository
and the real factory, with each reachable strategy's behaviour supplied by an
oracle, plus the prompter oracle. -/
def containerEnv (platform : Platform) (oracle : StrategyTag → StrategyBehavior)
    (confirm : String → Bool → Bool) : UseCaseEnv :=
  { repo := catalogGetByID,
    getInstaller := fun appID => (factoryGetInstaller platform appID).map oracle,
    confirmAnswer := confirm }

/-- The five catalog identifiers with no wired installer strategy. -/
def unwiredCatalogIDs : List AppID :=
  ["neovim", "neovim-config", "zsh", "oh-my-zsh", "nerd-font"]

/-! ## Docker Ubuntu uninstall (internal/installer/docker/ubuntu_strategy.go) -/

/-- The data directories the Docker Ubuntu uninstall removes when
opts.RemoveData is set (lines 246-251). -/
def dockerDataDirectories (homeDir : String) : List String :=
  ["/var/lib/docker", "/var/lib/containerd", "/etc/docker",
   homeDir ++ "/.docker"]

/-- The exact sequence of commands UbuntuStrategy.Uninstall issues
(lines 220-264): stop and disable the service, purge the packages, remove the
data directories only when RemoveData is set, then delete the repository list
and key files. -/
def dockerUbuntuUninstallCmds (homeDir : String) (opts : UninstallOptions) :
    List (List String) :=
  [["systemctl", "stop", "docker"],
   ["systemctl", "disable", "docker"],
   ["apt-get", "purge", "-y", "docker-ce", "docker-ce-cli", "containerd.io",
    "docker-buildx-plugin", "docker-compose-plugin"]]
  ++ (if opts.removeData then
        (dockerDataDirectories homeDir).map (fun dir => ["rm", "-rf", dir])
      else [])
  ++ [["rm", "-f", "/etc/apt/sources.list.d/docker.list"],
      ["rm", "-f", "/etc/apt/keyrings/docker.asc"]]

/-- UbuntuStrategy.Uninstall always returns this success result. -/
def dockerUbuntuUninstallResult : UninstallResult :=
  UninstallResult.newSuccess "Docker desinstalle avec succes"

/-! ## Privilege broker (internal/tui/app.go, askpass variant) -/

/-- External behaviour relevant to preCacheSudo: whether the process is root,
dry-run mode, sudo presence on PATH, the password read from the terminal (an
error models a failed term.ReadPassword), whether sudo -S -v accepts the
trimmed password, and whether os.CreateTemp succeeds and under which name. -/
structure SudoEnv where
  isRoot : Bool
  dryRun : Bool
  sudoOnPath : Bool
  passwordRead : Except String String
  verifyOk : String → Bool
  tempFileOk : Bool
  tempFileName : String

/-- Privilege-broker state: the sudoAskpassScript global, the askpass path the
runner was given via SetSudoAskpass, and whether a helper file currently
exists on disk. -/
structure SudoState where
  scriptVar : String
  runnerAskpass : String
  helperOnDisk : Bool
deriving DecidableEq, Repr

/-- The state before any batch: no helper anywhere. -/
def initialSudoState : SudoState :=
  { scriptVar := "", runnerAskpass := "", helperOnDisk := false }

/-- Terminal output of the broker and batch loop. -/
inductive TuiEvent where
  | infoLine (msg : String)
  | warnLine (msg : String)
  | passwordPrompt
  | itemStart (name : String)
  | itemOk (name : String)
  | itemFail (msg : String)
  | itemSkipped (name : String)
deriving DecidableEq, Repr

/-- Whitespace as recognised by strings.TrimSpace (ASCII part). -/
def isSpaceChar (c : Char) : Bool :=
  c = ' ' || c = '\t' || c = '\n' || c = '\r'

/-- strings.TrimSpace: strip leading and trailing whitespace. -/
def goTrimSpace (s : String) : String :=
  String.mk (((s.toList.dropWhile isSpaceChar).reverse.dropWhile isSpaceChar).reverse)

/-- App.preCacheSudo, tui/app.go lines 85-149: skip when root or dry-run or
sudo is absent; read the password without echo; verify it with sudo -S -v; on
success write a restricted askpass script, remember it in the global and hand
it to the runner. Every failure path returns with the state unchanged. -/
def preCacheSudo (env : SudoEnv) (st : SudoState) : SudoState × List TuiEvent :=
  if env.isRoot || env.dryRun then (st, [])
  else if !env.sudoOnPath then (st, [])
  else
    match env.passwordRead with
    | .error _ =>
      (st, [.passwordPrompt, .warnLine "Impossible de lire le mot de passe."])
    | .ok raw =>
      let password := goTrimSpace raw
      if password = "" then (st, [.passwordPrompt])
      else if !env.verifyOk password then
        (st, [.passwordPrompt, .warnLine "Mot de passe incorrect."])
      else if !env.tempFileOk then (st, [.passwordPrompt])
      else
        ({ scriptVar := env.tempFileName, runnerAskpass := env.tempFileName,
           helperOnDisk := true },
         [.passwordPrompt])

/-- App.cleanupSudo, tui/app.go lines 158-165: remove the script file when the
global names one, clear the global, clear the runner's askpass. -/
def cleanupSudo (st : SudoState) : SudoState :=
  { scriptVar := "", runnerAskpass := "",
    helperOnDisk := st.helperOnDisk && st.scriptVar == "" }

/-- Behaviour of one selected item inside the batch loop of
App.runInstallations: its installer/uninstaller may be nil, may panic, or
returns a result with a success flag and message. -/
inductive OpBehavior where
  | missing
  | panics
  | returns (success : Bool) (message : String)
deriving DecidableEq, Repr

/-- Outcome of App.runInstallations: whether an operation panicked (in which
case the function unwound without reaching cleanupSudo), whether a helper file
is still on disk at process exit, and whether the process exited with status 1
because some operation failed. -/
structure BatchRunOutcome where
  panicked : Bool
  helperOnDisk : Bool
  exitedNonzero : Bool
deriving DecidableEq, Repr

/-- The item loop of App.runInstallations (lines 200-229): a missing
installer prints an error and continues, a failure sets hasError, a panic
unwinds the whole function. Returns none on panic, otherwise the hasError
accumulator. -/
def batchLoop : List (String × OpBehavior) → Bool → Option Bool
  | [], hasError => some hasError
  | (_, op) :: rest, hasError =>
    match op with
    | .missing => batchLoop rest hasError
    | .panics => none
    | .returns success _ => batchLoop rest (hasError || !success)

/-- App.runInstallations, tui/app.go lines 167-244: preCacheSudo first, then
the sequential item loop, then a plain (not deferred) cleanupSudo call, then
os.Exit(1) if any item failed. A panic in the loop propagates out of the
function before cleanupSudo runs. -/
def runInstallations (env : SudoEnv) (items : List (String × OpBehavior)) :
    BatchRunOutcome :=
  let (st1, _) := preCacheSudo env initialSudoState
  match batchLoop items false with
  | none =>
    { panicked := true, helperOnDisk := st1.helperOnDisk, exitedNonzero := false }
  | some hasError =>
    let st2 := cleanupSudo st1
    { panicked := false, helperOnDisk := st2.helperOnDisk,
      exitedNonzero := hasError }

/-! ## Legacy CLI and legacy VSCode installer (internal/cli, vscode package
concatenated in shell_executor.go) -/

/-- The slice of cli.CLI state that AskYesNo reads. -/
structure LegacyCLI where
  noInteraction : Bool
deriving DecidableEq, Repr

/-- CLI.AskYesNo: in NoInteraction mode it prints the auto-answer and returns
the default without prompting; otherwise it shows a survey prompt and returns
the user's answer. The second component records whether an interactive prompt
was shown; answers is the user oracle (question, default) -> reply. -/
def cliAskYesNo (cli : LegacyCLI) (answers : String → Bool → Bool)
    (question : String) (defaultValue : Bool) : Bool × Bool :=
  if cli.noInteraction then (defaultValue, false)
  else (answers question defaultValue, true)

/-- Result type of the legacy installers framework (success flag and
message are the parts the TUI consumes). -/
structure LegacyResult where
  success : Bool
  message : String
deriving DecidableEq, Repr

/-- installers.NewSuccessResult. -/
def LegacyResult.ok (message : String) : LegacyResult :=
  { success := true, message := message }

/-- installers.NewFailureResult. -/
def LegacyResult.fail (message : String) : LegacyResult :=
  { success := false, message := message }

/-- Environment of the legacy VSCode installer: the CheckExisting answer and
the platform flags, with the platform-specific installation sub-procedures
(installMacOS / installUbuntu) abstracted by their results. -/
structure LegacyVSCodeEnv where
  existing : AppStatus × String
  isMacOS : Bool
  isDebian : Bool
  macResult : LegacyResult
  ubuntuResult : LegacyResult

/-- Outcome of the legacy VSCode Install: the returned result, whether an
interactive reinstall prompt was shown, and whether the platform-specific
installation was entered at all. -/
structure LegacyInstallOutcome where
  result : LegacyResult
  promptShown : Bool
  proceeded : Bool
deriving DecidableEq, Repr

/-- The legacy vscode Installer.Install (second document of shell_executor.go,
lines 275-305): re-check status; when installed, ask "Voulez-vous
reinstaller?" with default false through CLI.AskYesNo and return an
already-installed success when the answer is no; otherwise dispatch to the
platform install. The post-install extension handling follows the platform
dispatch and does not change the returned result, so it is not recorded
here. -/
def legacyVSCodeInstall (cli : LegacyCLI) (answers : String → Bool → Bool)
    (env : LegacyVSCodeEnv) : LegacyInstallOutcome :=
  let (status, _version) := env.existing
  let dispatch : Bool → LegacyInstallOutcome := fun shown =>
    if env.isMacOS then
      { result := env.macResult, promptShown := shown, proceeded := true }
    else if env.isDebian then
      { result := env.ubuntuResult, promptShown := shown, proceeded := true }
    else
      { result := LegacyResult.fail "Systeme non supporte",
        promptShown := shown, proceeded := false }
  if status = .installed then
    let (answer, shown) := cliAskYesNo cli answers "Voulez-vous reinstaller?" false
    if !answer then
      { result := LegacyResult.ok "VSCode deja installe",
        promptShown := shown, proceeded := false }
    else dispatch shown
  else dispatch false

/-! ## Lemmas about the Go map model -/

theorem mapLookup_insert_self {α : Type} (m : List (AppID × α)) (k : AppID)
    (v : α) : mapLookup (mapInsert m k v) k = some v := by
  induction m with
  | nil => simp [mapInsert, mapLookup]
  | cons hd tl ih =>
    obtain ⟨k0, v0⟩ := hd
    by_cases h : k0 = k
    · simp [mapInsert, h, mapLookup]
    · simp [mapInsert, h, mapLookup, ih]

theorem mapLookup_insert_ne {α : Type} (m : List (AppID × α)) {k id : AppID}
    (v : α) (h : id ≠ k) : mapLookup (mapInsert m k v) id = mapLookup m id := by
  induction m with
  | nil => simp [mapInsert, mapLookup, Ne.symm h]
  | cons hd tl ih =>
    obtain ⟨k0, v0⟩ := hd
    by_cases hk : k0 = k
    · subst hk; simp [mapInsert, mapLookup, Ne.symm h]
    · by_cases hid : k0 = id
      · subst hid; simp [mapInsert, hk, mapLookup]
      · simp [mapInsert, hk, mapLookup, hid, ih]

theorem keys_mapInsert {α : Type} (m : List (AppID × α)) (k a : AppID)
    (v : α) :
    a ∈ (mapInsert m k v).map Prod.fst ↔ a ∈ m.map Prod.fst ∨ a = k := by
  induction m with
  | nil => simp [mapInsert]
  | cons hd tl ih =>
    obtain ⟨k0, v0⟩ := hd
    by_cases h : k0 = k
    · subst h
      simp [mapInsert, List.mem_cons]
      tauto
    · simp only [mapInsert, if_neg h, List.map_cons, List.mem_cons, ih]
      tauto

theorem nodupKeys_mapInsert {α : Type} (m : List (AppID × α)) (k : AppID)
    (v : α) (h : (m.map Prod.fst).Nodup) :
    ((mapInsert m k v).map Prod.fst).Nodup := by
  induction m with
  | nil => simp [mapInsert]
  | cons hd tl ih =>
    obtain ⟨k0, v0⟩ := hd
    simp only [List.map_cons, List.nodup_cons] at h
    by_cases hk : k0 = k
    · subst hk
      simpa [mapInsert, List.nodup_cons] using h
    · simp only [mapInsert, if_neg hk, List.map_cons, List.nodup_cons]
      refine ⟨?_, ih h.2⟩
      rw [keys_mapInsert]
      rintro (hmem | rfl)
      · exact h.1 hmem
      · exact hk rfl

/-! ## Lemmas about the batch loops -/

theorem installLoop_lookup_isSome (env : UseCaseEnv) (opts : InstallOptions)
    (total : Nat) : ∀ (l : List AppID) (i : Nat)
    (m : List (AppID × InstallResult)) (evs : List UCEvent) (id : AppID),
    (mapLookup (installLoop env opts total i l m evs).1 id).isSome
      ↔ (mapLookup m id).isSome ∨ id ∈ l := by
  intro l
  induction l with
  | nil => intro i m evs id; simp [installLoop]
  | cons a rest ih =>
    intro i m evs id
    rcases hx : installExecute env a opts with ⟨res, ev⟩
    by_cases hid : id = a
    · subst hid
      cases res with
      | error e =>
        simp only [installLoop, hx, ih, mapLookup_insert_self]
        simp
      | ok r =>
        simp only [installLoop, hx, ih, mapLookup_insert_self]
        simp
    · cases res with
      | error e =>
        simp only [installLoop, hx, ih, mapLookup_insert_ne _ _ hid]
        simp [List.mem_cons, hid]
      | ok r =>
        simp only [installLoop, hx, ih, mapLookup_insert_ne _ _ hid]
        simp [List.mem_cons, hid]

theorem installLoop_nodupKeys (env : UseCaseEnv) (opts : InstallOptions)
    (total : Nat) : ∀ (l : List AppID) (i : Nat)
    (m : List (AppID × InstallResult)) (evs : List UCEvent),
    (m.map Prod.fst).Nodup →
    (((installLoop env opts total i l m evs).1.map Prod.fst)).Nodup := by
  intro l
  induction l with
  | nil => intro i m evs h; simpa [installLoop] using h
  | cons a rest ih =>
    intro i m evs h
    rcases hx : installExecute env a opts with ⟨res, ev⟩
    cases res with
    | error e =>
      simp only [installLoop, hx]
      exact ih _ _ _ (nodupKeys_mapInsert _ _ _ h)
    | ok r =>
      simp only [installLoop, hx]
      exact ih _ _ _ (nodupKeys_mapInsert _ _ _ h)

theorem uninstallLoop_lookup_isSome (env : UseCaseEnv)
    (opts : UninstallOptions) (total : Nat) : ∀ (l : List AppID) (i : Nat)
    (m : List (AppID × UninstallResult)) (evs : List UCEvent) (id : AppID),
    (mapLookup (uninstallLoop env opts total i l m evs).1 id).isSome
      ↔ (mapLookup m id).isSome ∨ id ∈ l := by
  intro l
  induction l with
  | nil => intro i m evs id; simp [uninstallLoop]
  | cons a rest ih =>
    intro i m evs id
    rcases hx : uninstallExecute env a opts with ⟨res, ev⟩
    by_cases hid : id = a
    · subst hid
      cases res with
      | error e =>
        simp only [uninstallLoop, hx, ih, mapLookup_insert_self]
        simp
      | ok r =>
        simp only [uninstallLoop, hx, ih, mapLookup_insert_self]
        simp
    · cases res with
      | error e =>
        simp only [uninstallLoop, hx, ih, mapLookup_insert_ne _ _ hid]
        simp [List.mem_cons, hid]
      | ok r =>
        simp only [uninstallLoop, hx, ih, mapLookup_insert_ne _ _ hid]
        simp [List.mem_cons, hid]

theorem uninstallLoop_nodupKeys (env : UseCaseEnv) (opts : UninstallOptions)
    (total : Nat) : ∀ (l : List AppID) (i : Nat)
    (m : List (AppID × UninstallResult)) (evs : List UCEvent),
    (m.map Prod.fst).Nodup →
    (((uninstallLoop env opts total i l m evs).1.map Prod.fst)).Nodup := by
  intro l
  induction l with
  | nil => intro i m evs h; simpa [uninstallLoop] using h
  | cons a rest ih =>
    intro i m evs h
    rcases hx : uninstallExecute env a opts with ⟨res, ev⟩
    cases res with
    | error e =>
      simp only [uninstallLoop, hx]
      exact ih _ _ _ (nodupKeys_mapInsert _ _ _ h)
    | ok r =>
      simp only [uninstallLoop, hx]
      exact ih _ _ _ (nodupKeys_mapInsert _ _ _ h)

/-- C1: for every list of selected application identifiers and both modes,
the result map of ExecuteMultiple has an entry for an identifier exactly when
it was selected — a failing Execute contributes a failure entry, never an
omission — and the map binds each identifier at most once. -/
theorem C1_batch_one_result_per_selected_id (env : UseCaseEnv)
    (appIDs : List AppID) (iopts : InstallOptions) (uopts : UninstallOptions)
    (id : AppID) :
    ((mapLookup (installExecuteMultiple env appIDs iopts).1 id).isSome
       ↔ id ∈ appIDs)
    ∧ ((mapLookup (uninstallExecuteMultiple env appIDs uopts).1 id).isSome
       ↔ id ∈ appIDs)
    ∧ ((installExecuteMultiple env appIDs iopts).1.map Prod.fst).Nodup
    ∧ ((uninstallExecuteMultiple env appIDs uopts).1.map Prod.fst).Nodup := by
  refine ⟨?_, ?_, ?_, ?_⟩
  · rw [installExecuteMultiple, installLoop_lookup_isSome]
    simp [mapLookup]
  · rw [uninstallExecuteMultiple, uninstallLoop_lookup_isSome]
    simp [mapLookup]
  · exact installLoop_nodupKeys env iopts _ _ _ _ _ (by simp)
  · exact uninstallLoop_nodupKeys env uopts _ _ _ _ _ (by simp)

theorem installLoop_events_mono (env : UseCaseEnv) (opts : InstallOptions)
    (total : Nat) : ∀ (l : List AppID) (i : Nat)
    (m : List (AppID × InstallResult)) (evs : List UCEvent) (x : UCEvent),
    x ∈ evs → x ∈ (installLoop env opts total i l m evs).2 := by
  intro l
  induction l with
  | nil => intro i m evs x hx; simpa [installLoop] using hx
  | cons a rest ih =>
    intro i m evs x hx
    rcases hexec : installExecute env a opts with ⟨res, ev⟩
    cases res with
    | error e =>
      simp only [installLoop, hexec]
      exact ih _ _ _ _ (by simp [hx])
    | ok r =>
      simp only [installLoop, hexec]
      exact ih _ _ _ _ (by simp [hx])

theorem installLoop_step_mem (env : UseCaseEnv) (opts : InstallOptions)
    (total : Nat) : ∀ (l : List AppID) (i : Nat)
    (m : List (AppID × InstallResult)) (evs : List UCEvent) (j : Nat)
    (hj : j < l.length),
    UCEvent.step (i + j + 1) total ("Installation de " ++ l.get ⟨j, hj⟩)
      ∈ (installLoop env opts total i l m evs).2 := by
  intro l
  induction l with
  | nil => intro i m evs j hj; exact absurd hj (by simp)
  | cons a rest ih =>
    intro i m evs j hj
    rcases hexec : installExecute env a opts with ⟨res, ev⟩
    cases j with
    | zero =>
      have hmem :
          UCEvent.step (i + 1) total ("Installation de " ++ a)
            ∈ evs ++ UCEvent.step (i + 1) total ("Installation de " ++ a) :: ev := by
        simp
      cases res with
      | error e =>
        simp only [installLoop, hexec]
        simpa using installLoop_events_mono env opts total rest (i + 1) _ _ _ hmem
      | ok r =>
        simp only [installLoop, hexec]
        simpa using installLoop_events_mono env opts total rest (i + 1) _ _ _ hmem
    | succ j0 =>
      have hj0 : j0 < rest.length := by simpa using Nat.lt_of_succ_lt_succ hj
      have harith : i + (j0 + 1) + 1 = (i + 1) + j0 + 1 := by omega
      cases res with
      | error e =>
        simp only [installLoop, hexec]
        have := ih (i + 1)
          (mapInsert m a (InstallResult.newFailure e []))
          (evs ++ UCEvent.step (i + 1) total ("Installation de " ++ a) :: ev) j0 hj0
        simpa [harith] using this
      | ok r =>
        simp only [installLoop, hexec]
        have := ih (i + 1) (mapInsert m a r)
          (evs ++ UCEvent.step (i + 1) total ("Installation de " ++ a) :: ev) j0 hj0
        simpa [harith] using this

theorem installLoop_lookup_not_mem (env : UseCaseEnv) (opts : InstallOptions)
    (total : Nat) : ∀ (l : List AppID) (i : Nat)
    (m : List (AppID × InstallResult)) (evs : List UCEvent) (id : AppID),
    id ∉ l →
    mapLookup (installLoop env opts total i l m evs).1 id = mapLookup m id := by
  intro l
  induction l with
  | nil => intro i m evs id _; simp [installLoop]
  | cons a rest ih =>
    intro i m evs id hid
    have hne : id ≠ a := fun h => hid (by simp [h])
    have hrest : id ∉ rest := fun h => hid (by simp [h])
    rcases hexec : installExecute env a opts with ⟨res, ev⟩
    cases res with
    | error e =>
      simp only [installLoop, hexec]
      rw [ih _ _ _ _ hrest, mapLookup_insert_ne _ _ hne]
    | ok r =>
      simp only [installLoop, hexec]
      rw [ih _ _ _ _ hrest, mapLookup_insert_ne _ _ hne]

theorem installLoop_lookup_of_error (env : UseCaseEnv) (opts : InstallOptions)
    (total : Nat) {id : AppID} {msg : String} {evx : List UCEvent}
    (hexec : installExecute env id opts = (.error msg, evx)) :
    ∀ (l : List AppID) (i : Nat) (m : List (AppID × InstallResult))
    (evs : List UCEvent), id ∈ l →
    mapLookup (installLoop env opts total i l m evs).1 id
      = some (InstallResult.newFailure msg []) := by
  intro l
  induction l with
  | nil => intro i m evs h; exact absurd h (by simp)
  | cons a rest ih =>
    intro i m evs hmem
    by_cases hid : id = a
    · subst hid
      simp only [installLoop, hexec]
      by_cases hrest : id ∈ rest
      · exact ih _ _ _ hrest
      · rw [installLoop_lookup_not_mem env opts total rest _ _ _ _ hrest,
          mapLookup_insert_self]
    · have hrest : id ∈ rest := by
        rcases List.mem_cons.mp hmem with h | h
        · exact absurd h hid
        · exact h
      rcases hexec2 : installExecute env a opts with ⟨res, ev⟩
      cases res with
      | error e =>
        simp only [installLoop, hexec2]
        exact ih _ _ _ hrest
      | ok r =>
        simp only [installLoop, hexec2]
        exact ih _ _ _ hrest

/-- C6: in a batch, an application whose strategy resolution fails gets a
failure result whose message carries the resolution error, every selected
application still gets exactly one entry, and the step notification is still
emitted for every position of the batch — a resolution failure never aborts
the loop. -/
theorem C6_resolution_failure_recorded_and_batch_continues
    (env : UseCaseEnv) (opts : InstallOptions) (appIDs : List AppID)
    (idBad : AppID) (e : String) (app : Application)
    (hrepo : env.repo idBad = some app)
    (hfact : env.getInstaller idBad = .error e)
    (hmem : idBad ∈ appIDs) :
    mapLookup (installExecuteMultiple env appIDs opts).1 idBad
      = some (InstallResult.newFailure ("no installer for " ++ idBad ++ ": " ++ e) [])
    ∧ (∀ id ∈ appIDs,
        (mapLookup (installExecuteMultiple env appIDs opts).1 id).isSome)
    ∧ (∀ (j : Nat) (hj : j < appIDs.length),
        UCEvent.step (j + 1) appIDs.length
            ("Installation de " ++ appIDs.get ⟨j, hj⟩)
          ∈ (installExecuteMultiple env appIDs opts).2) := by
  have hexec : installExecute env idBad opts
      = (.error ("no installer for " ++ idBad ++ ": " ++ e), []) := by
    simp [installExecute, hrepo, hfact]
  refine ⟨?_, ?_, ?_⟩
  · exact installLoop_lookup_of_error env opts appIDs.length hexec appIDs 0 [] [] hmem
  · intro id hid
    rw [installExecuteMultiple, installLoop_lookup_isSome]
    exact Or.inr hid
  · intro j hj
    have := installLoop_step_mem env opts appIDs.length appIDs 0 [] [] j hj
    simpa using this

/-- A trivial strategy behaviour used by concrete witnesses. -/
def witnessStrategy : StrategyBehavior :=
  { checkStatus := (.notInstalled, "", none),
    installOutcome := .ok (InstallResult.newSuccess "ok"),
    uninstallOutcome := .ok (UninstallResult.newSuccess "ok") }

/-- A concrete use-case environment in which every application exists in the
repository but "b" has no installer strategy. -/
def c6WitnessEnv : UseCaseEnv :=
  { repo := fun id => some { id := id, name := "B", description := "", tags := [] },
    getInstaller := fun id =>
      if id = "b" then .error "unknown application: b" else .ok witnessStrategy,
    confirmAnswer := fun _ d => d }

/-- Concrete non-interactive install options used by witnesses. -/
def witnessInstallOpts : InstallOptions :=
  { dryRun := false, noInteraction := true, dockerOptions := none }

/-- C6 witness: a concrete three-application batch in which the middle
application has no strategy still yields a failure entry for it. -/
theorem C6_witness :
    mapLookup (installExecuteMultiple c6WitnessEnv ["a", "b", "c"] witnessInstallOpts).1 "b"
      = some (InstallResult.newFailure "no installer for b: unknown application: b" []) :=
  (C6_resolution_failure_recorded_and_batch_continues c6WitnessEnv
    witnessInstallOpts ["a", "b", "c"] "b" "unknown application: b"
    { id := "b", name := "B", description := "", tags := [] }
    (by simp [c6WitnessEnv]) (by simp [c6WitnessEnv]) (by simp)).1

/-! ## Shared concrete values for witnesses -/

/-- A process that exits promptly with code 0. -/
def procExitZero : ProcessBehavior :=
  { startOk := true, startErrMsg := "", duration := some timeSecond,
    exitCode := 0, stdout := "ok", stderr := "" }

/-- A process that never exits on its own. -/
def procHangs : ProcessBehavior :=
  { startOk := true, startErrMsg := "", duration := none,
    exitCode := 0, stdout := "", stderr := "" }

/-- An executor in dry-run mode with no askpass script. -/
def execDry : ShellExecutor := { dryRun := true, sudoAskpass := "" }

/-- An executor in normal mode with no askpass script. -/
def execLive : ShellExecutor := { dryRun := false, sudoAskpass := "" }

/-- A legacy runner in dry-run mode. -/
def legacyDry : LegacyRunner := { dryRun := true }

/-- A legacy runner in normal mode. -/
def legacyLive : LegacyRunner := { dryRun := false }

/-! ## Claim C4 -/

/-- C4: a CommandOutcome of ShellExecutor.Execute is a success exactly when
the dry-run bypass fired, or the process started, stayed within the deadline
and exited with code 0; any non-zero exit, start failure or timeout yields a
failed outcome (and Execute is a total function — failures are values, never
faults). -/
theorem C4_success_iff_exit_zero_or_bypass (e : ShellExecutor) (euid : Nat)
    (args : List String) (opts : List CommandOption) (proc : ProcessBehavior) :
    ((e.execute euid args opts proc).result.success = true) ↔
      ((e.dryRun = true ∧ (applyOptions opts).skipDryRun = false)
       ∨ (proc.startOk = true
          ∧ procTimedOut (applyOptions opts).timeout proc = false
          ∧ proc.exitCode = 0)) := by
  by_cases hdr : e.dryRun <;>
  by_cases hskip : (applyOptions opts).skipDryRun <;>
  by_cases hstart : proc.startOk <;>
  by_cases ht : procTimedOut (applyOptions opts).timeout proc <;>
  by_cases hexit : proc.exitCode = 0 <;>
  by_cases hint : ((applyOptions opts).interactive
      || ((applyOptions opts).useSudo && !(applyOptions opts).sudoNonInteractive
          && (e.sudoAskpass == ""))) = true <;>
    simp_all [ShellExecutor.execute] <;> split <;> rfl

/-! ## Claim C5 -/

/-- C5: with dry-run active and the spec not opted out, Execute spawns no
subprocess, returns a success outcome with empty captured output, and reports
the simulated command; the legacy Runner.Run behaves the same way (it has no
opt-out at all). -/
theorem C5_dry_run_bypass (e : ShellExecutor) (euid : Nat) (args : List String)
    (opts : List CommandOption) (proc : ProcessBehavior) (r : LegacyRunner)
    (euid2 : Nat) (args2 : List String) (ropts : List RunnerOption)
    (proc2 : ProcessBehavior) (h1 : e.dryRun = true)
    (h2 : (applyOptions opts).skipDryRun = false) (h3 : r.dryRun = true) :
    ((e.execute euid args opts proc).ran = false
     ∧ (e.execute euid args opts proc).result
         = { success := true, stdout := "", stderr := "", exitCode := 0,
             error := none }
     ∧ ReportEvent.info
           ("[DRY RUN] " ++ joinArgs (e.execute euid args opts proc).finalArgs)
         ∈ (e.execute euid args opts proc).events)
    ∧ ((r.run euid2 args2 ropts proc2).ran = false
     ∧ (r.run euid2 args2 ropts proc2).result = RunnerResult.ok ""
     ∧ ReportEvent.info
           ("[DRY RUN] " ++ joinArgs (r.run euid2 args2 ropts proc2).finalArgs)
         ∈ (r.run euid2 args2 ropts proc2).events) := by
  constructor
  · simp [ShellExecutor.execute, h1, h2]
  · simp [LegacyRunner.run, h3]

/-- C5 witness: the bypass at a concrete dry-run invocation. -/
theorem C5_witness :
    ((execDry.execute 1000 ["apt-get", "update"] [] procExitZero).ran = false
     ∧ (execDry.execute 1000 ["apt-get", "update"] [] procExitZero).result
         = { success := true, stdout := "", stderr := "", exitCode := 0,
             error := none }
     ∧ ReportEvent.info
           ("[DRY RUN] "
             ++ joinArgs (execDry.execute 1000 ["apt-get", "update"] [] procExitZero).finalArgs)
         ∈ (execDry.execute 1000 ["apt-get", "update"] [] procExitZero).events)
    ∧ ((legacyDry.run 1000 ["apt-get", "update"] [] procExitZero).ran = false
     ∧ (legacyDry.run 1000 ["apt-get", "update"] [] procExitZero).result
         = RunnerResult.ok ""
     ∧ ReportEvent.info
           ("[DRY RUN] "
             ++ joinArgs (legacyDry.run 1000 ["apt-get", "update"] [] procExitZero).finalArgs)
         ∈ (legacyDry.run 1000 ["apt-get", "update"] [] procExitZero).events) :=
  C5_dry_run_bypass execDry 1000 ["apt-get", "update"] [] procExitZero
    legacyDry 1000 ["apt-get", "update"] [] procExitZero rfl rfl rfl

/-! ## Claim C3 -/

/-- C3 counterexample: the legacy Runner.RunInteractive applies no deadline at
all — invoked on a process that never exits, the call never returns any
outcome (modelled as none), in particular no timeout failure with exit code
-1. This refutes the claim that every execution mode of the process runner is
bounded by a deadline. -/
theorem C3_counterexample :
    legacyLive.runInteractive 1000 ["apt-get", "install", "-y", "code"] []
        procHangs = none := by
  rfl

/-- C3 amended: ShellExecutor.Execute is deadline-bounded in every execution
mode — the default timeout is 2 minutes, WithTimeout overrides it, and when a
started process overruns the deadline the outcome is a failure with the
timeout error and exit code -1 (in the captured and the terminal-attached
branch alike); the legacy captured Runner.Run behaves the same; only the
legacy Runner.RunInteractive runs without any deadline. -/
theorem C3_amended_timeout_bounds (e : ShellExecutor) (euid : Nat)
    (args : List String) (opts : List CommandOption) (proc : ProcessBehavior)
    (r : LegacyRunner) (euid2 : Nat) (args2 : List String)
    (ropts : List RunnerOption) (proc2 : ProcessBehavior)
    (hbypass : (e.dryRun && !(applyOptions opts).skipDryRun) = false)
    (hstart : proc.startOk = true)
    (htime : procTimedOut (applyOptions opts).timeout proc = true)
    (hdr2 : r.dryRun = false) (hstart2 : proc2.startOk = true)
    (htime2 : procTimedOut
        (ropts.foldl RunnerOptions.apply runnerRunDefaults).timeout proc2
      = true) :
    (applyOptions []).timeout = 2 * timeMinute
    ∧ (∀ t : Nat, (applyOptions [.withTimeout t]).timeout = t)
    ∧ (e.execute euid args opts proc).result
        = { success := false, stdout := "", stderr := "Command timed out",
            exitCode := -1, error := some .deadlineExceeded }
    ∧ (r.run euid2 args2 ropts proc2).result
        = RunnerResult.fail "Command timed out" (-1) .deadlineExceeded := by
  refine ⟨rfl, fun t => rfl, ?_, ?_⟩
  · simp [ShellExecutor.execute, hbypass, hstart, htime]
  · simp [LegacyRunner.run, hdr2, hstart2, htime2]

/-- C3 witness: the amended statement at a concrete hanging process under the
default two-minute deadline. -/
theorem C3_witness :
    (applyOptions []).timeout = 2 * timeMinute
    ∧ (∀ t : Nat, (applyOptions [.withTimeout t]).timeout = t)
    ∧ (execLive.execute 1000 ["apt-get", "update"] [] procHangs).result
        = { success := false, stdout := "", stderr := "Command timed out",
            exitCode := -1, error := some .deadlineExceeded }
    ∧ (legacyLive.run 1000 ["apt-get", "update"] [] procHangs).result
        = RunnerResult.fail "Command timed out" (-1) .deadlineExceeded :=
  C3_amended_timeout_bounds execLive 1000 ["apt-get", "update"] [] procHangs
    legacyLive 1000 ["apt-get", "update"] [] procHangs
    rfl rfl rfl rfl rfl rfl

/-! ## Claim C9 -/

/-- C9: when verification of the elevation secret fails, preCacheSudo leaves
the broker state untouched — no askpass helper is written, the runner keeps no
askpass path — and surfaces a warning; afterwards every elevated command
(none of the strategies sets SudoNonInteractive) is prefixed with plain sudo
and runs through the terminal-attached branch, still executing rather than
aborting. -/
theorem C9_failed_verification_falls_back_interactive (env : SudoEnv)
    (st : SudoState) (raw : String) (e : ShellExecutor) (euid : Nat)
    (args : List String) (opts : List CommandOption) (proc : ProcessBehavior)
    (h1 : env.isRoot = false) (h2 : env.dryRun = false)
    (h3 : env.sudoOnPath = true) (h4 : env.passwordRead = .ok raw)
    (h5 : goTrimSpace raw ≠ "") (h6 : env.verifyOk (goTrimSpace raw) = false)
    (h7 : (applyOptions opts).useSudo = true)
    (h8 : (applyOptions opts).sudoNonInteractive = false)
    (h9 : e.sudoAskpass = "") (h10 : euid ≠ 0)
    (h11 : (e.dryRun && !(applyOptions opts).skipDryRun) = false) :
    preCacheSudo env st
      = (st, [.passwordPrompt, .warnLine "Mot de passe incorrect."])
    ∧ (e.execute euid args opts proc).interactiveMode = true
    ∧ (e.execute euid args opts proc).finalArgs = "sudo" :: args
    ∧ (e.execute euid args opts proc).ran = true := by
  refine ⟨?_, ?_, ?_, ?_⟩
  · simp [preCacheSudo, h1, h2, h3, h4, h5, h6]
  · simp [ShellExecutor.execute, h7, h8, h9, h10, h11]
  · simp [ShellExecutor.execute, h7, h8, h9, h10, h11]
  · simp [ShellExecutor.execute, h7, h8, h9, h10, h11]

/-- A concrete broker environment whose password verification fails. -/
def badSecretEnv : SudoEnv :=
  { isRoot := false, dryRun := false, sudoOnPath := true,
    passwordRead := .ok "wrong-secret", verifyOk := fun _ => false,
    tempFileOk := true, tempFileName := "/tmp/askpass-w.sh" }

/-- C9 witness: the fallback at a concrete failed verification followed by a
concrete elevated command. -/
theorem C9_witness :
    preCacheSudo badSecretEnv initialSudoState
      = (initialSudoState,
         [.passwordPrompt, .warnLine "Mot de passe incorrect."])
    ∧ (execLive.execute 1000 ["apt-get", "update"] [.withSudo] procExitZero).interactiveMode = true
    ∧ (execLive.execute 1000 ["apt-get", "update"] [.withSudo] procExitZero).finalArgs
        = "sudo" :: ["apt-get", "update"]
    ∧ (execLive.execute 1000 ["apt-get", "update"] [.withSudo] procExitZero).ran = true :=
  C9_failed_verification_falls_back_interactive badSecretEnv initialSudoState
    "wrong-secret" execLive 1000 ["apt-get", "update"] [.withSudo] procExitZero
    rfl rfl rfl rfl (by decide) rfl rfl rfl rfl (by decide) rfl

/-! ## Claim C2 -/

/-- A broker environment in which preCacheSudo fully succeeds and writes the
askpass helper script. -/
def goodSecretEnv : SudoEnv :=
  { isRoot := false, dryRun := false, sudoOnPath := true,
    passwordRead := .ok "hunter2", verifyOk := fun _ => true,
    tempFileOk := true, tempFileName := "/tmp/askpass-1234.sh" }

/-- C2: the cleanupSudo call in runInstallations is a plain statement after
the loop, not a deferred one, so a panic inside any item's Install or
Uninstall unwinds the function with the askpass helper still on disk; on the
normal paths (including the failing-batch path that exits with status 1) the
helper is removed. The first conjunct evaluates the batch at the failing
input; the second shows the same batch without the panic does clean up. -/
theorem C2_panic_leaks_askpass_helper :
    runInstallations goodSecretEnv [("Docker", .panics)]
      = { panicked := true, helperOnDisk := true, exitedNonzero := false }
    ∧ runInstallations goodSecretEnv [("Docker", .returns false "boom")]
      = { panicked := false, helperOnDisk := false, exitedNonzero := true } := by
  constructor
  · rfl
  · rfl

/-! ## Claim C7 -/

/-- C7: uninstalling a never-installed application succeeds — the use case
returns the "Application non installee" success without ever invoking the
strategy's Uninstall — and the Docker Ubuntu strategy issues no recursive
removal command at all unless RemoveData is explicitly set (while always
returning a success result). -/
theorem C7_uninstall_not_installed_succeeds (env : UseCaseEnv) (appID : AppID)
    (opts : UninstallOptions) (app : Application) (inst : StrategyBehavior)
    (st : AppStatus) (v : String) (cerr : Option String) (homeDir : String)
    (uopts : UninstallOptions)
    (hrepo : env.repo appID = some app)
    (hinst : env.getInstaller appID = .ok inst)
    (hcheck : inst.checkStatus = (st, v, cerr))
    (hnot : st.isInstalled = false)
    (hnodata : uopts.removeData = false) :
    (uninstallExecute env appID opts).1
        = .ok (UninstallResult.newSuccess "Application non installee")
    ∧ UCEvent.uninstallInvoked appID ∉ (uninstallExecute env appID opts).2
    ∧ (∀ dir : String,
        ["rm", "-rf", dir] ∉ dockerUbuntuUninstallCmds homeDir uopts)
    ∧ dockerUbuntuUninstallResult.success = true := by
  refine ⟨?_, ?_, ?_, rfl⟩
  · cases cerr <;> simp_all [uninstallExecute]
  · cases cerr <;> simp_all [uninstallExecute]
  · intro dir
    simp [dockerUbuntuUninstallCmds, hnodata]

/-- A strategy behaviour reporting the application as not installed. -/
def notInstalledStrategy : StrategyBehavior :=
  { checkStatus := (.notInstalled, "", none),
    installOutcome := .ok (InstallResult.newSuccess "ok"),
    uninstallOutcome := .ok (UninstallResult.newSuccess "ok") }

/-- An environment where "docker" exists and reports not installed. -/
def c7WitnessEnv : UseCaseEnv :=
  { repo := fun id =>
      some { id := id, name := "Docker", description := "", tags := [] },
    getInstaller := fun _ => .ok notInstalledStrategy,
    confirmAnswer := fun _ d => d }

/-- Concrete uninstall options with every removal flag off. -/
def witnessUninstallOpts : UninstallOptions :=
  { dryRun := false, noInteraction := true, removeConfig := false,
    removeCache := false, removeData := false, removeImages := false,
    removeVolumes := false, removeOhMyZsh := false, removePlugins := false,
    removeZshrc := false }

/-- C7 witness: a concrete never-installed uninstall and a concrete
RemoveData=false Docker uninstall command list. -/
theorem C7_witness :
    (uninstallExecute c7WitnessEnv "docker" witnessUninstallOpts).1
        = .ok (UninstallResult.newSuccess "Application non installee")
    ∧ UCEvent.uninstallInvoked "docker"
        ∉ (uninstallExecute c7WitnessEnv "docker" witnessUninstallOpts).2
    ∧ (∀ dir : String,
        ["rm", "-rf", dir] ∉ dockerUbuntuUninstallCmds "/home/user" witnessUninstallOpts)
    ∧ dockerUbuntuUninstallResult.success = true :=
  C7_uninstall_not_installed_succeeds c7WitnessEnv "docker"
    witnessUninstallOpts
    { id := "docker", name := "Docker", description := "", tags := [] }
    notInstalledStrategy .notInstalled "" none "/home/user" witnessUninstallOpts
    rfl rfl rfl rfl rfl

/-! ## Claim C8 -/

/-- A legacy VSCode environment on Debian with the editor already installed
and a working platform install. -/
def c8LegacyEnv : LegacyVSCodeEnv :=
  { existing := (.installed, "1.85.0"), isMacOS := false, isDebian := true,
    macResult := LegacyResult.ok "VSCode installe avec succes",
    ubuntuResult := LegacyResult.ok "VSCode installe avec succes" }

/-- C8 counterexample: in non-interactive mode the legacy VSCode installer
does not proceed with installation of an already-installed application — the
reinstall question is auto-answered with its default "no" (no prompt is
shown, which matches the claim) and Install returns the already-installed
success having entered no platform install. This refutes "in non-interactive
mode it proceeds without prompting" for the cited Installer.Install. -/
theorem C8_counterexample :
    legacyVSCodeInstall { noInteraction := true } (fun _ _ => true) c8LegacyEnv
      = { result := LegacyResult.ok "VSCode deja installe",
          promptShown := false, proceeded := false } := by
  rfl

/-- C8 amended: Install re-checks status first; when the application is
already installed the hexagonal use case behaves as claimed — interactive
mode asks for confirmation and declining returns the already-installed
success without invoking Install, while non-interactive mode proceeds without
prompting — but the legacy VSCode installer instead auto-answers the
confirmation with its default "no" in non-interactive mode and returns the
already-installed success without reinstalling. -/
theorem C8_amended_reinstall_confirmation (env : UseCaseEnv) (appID : AppID)
    (optsI optsN : InstallOptions) (app : Application)
    (inst : StrategyBehavior) (st : AppStatus) (v : String)
    (cerr : Option String) (cli : LegacyCLI) (answers : String → Bool → Bool)
    (lenv : LegacyVSCodeEnv) (lv : String)
    (hrepo : env.repo appID = some app)
    (hinst : env.getInstaller appID = .ok inst)
    (hcheck : inst.checkStatus = (st, v, cerr))
    (hinstalled : st.isInstalled = true)
    (hN : optsN.noInteraction = true)
    (hI : optsI.noInteraction = false)
    (hdecline : env.confirmAnswer "Voulez-vous reinstaller?" false = false)
    (hcli : cli.noInteraction = true)
    (hlst : lenv.existing = (.installed, lv)) :
    ((installExecute env appID optsI).1
        = .ok ((InstallResult.newSuccess "Deja installe").withVersion v)
     ∧ UCEvent.confirmAsked "Voulez-vous reinstaller?"
         ∈ (installExecute env appID optsI).2
     ∧ UCEvent.installInvoked appID ∉ (installExecute env appID optsI).2)
    ∧ ((∀ q : String, UCEvent.confirmAsked q ∉ (installExecute env appID optsN).2)
     ∧ UCEvent.installInvoked appID ∈ (installExecute env appID optsN).2)
    ∧ ((legacyVSCodeInstall cli answers lenv).promptShown = false
     ∧ (legacyVSCodeInstall cli answers lenv).proceeded = false
     ∧ (legacyVSCodeInstall cli answers lenv).result
         = LegacyResult.ok "VSCode deja installe") := by
  refine ⟨⟨?_, ?_, ?_⟩, ⟨?_, ?_⟩, ?_, ?_, ?_⟩
  · cases cerr <;> simp_all [installExecute]
  · cases cerr <;> simp_all [installExecute]
  · cases cerr <;> simp_all [installExecute]
  · intro q
    rcases hx : inst.installOutcome with eo | r
    · cases cerr <;> simp_all [installExecute]
    · by_cases hr : r.success <;> cases cerr <;> simp_all [installExecute]
  · rcases hx : inst.installOutcome with eo | r
    · cases cerr <;> simp_all [installExecute]
    · by_cases hr : r.success <;> cases cerr <;> simp_all [installExecute]
  · simp [legacyVSCodeInstall, hlst, cliAskYesNo, hcli]
  · simp [legacyVSCodeInstall, hlst, cliAskYesNo, hcli]
  · simp [legacyVSCodeInstall, hlst, cliAskYesNo, hcli]

/-- A strategy behaviour reporting the application as installed. -/
def installedStrategy : StrategyBehavior :=
  { checkStatus := (.installed, "1.85.0", none),
    installOutcome := .ok (InstallResult.newSuccess "reinstalled"),
    uninstallOutcome := .ok (UninstallResult.newSuccess "ok") }

/-- An environment where "vscode" exists, is installed, and the user declines
the reinstall confirmation. -/
def c8WitnessEnv : UseCaseEnv :=
  { repo := fun id =>
      some { id := id, name := "Visual Studio Code", description := "", tags := [] },
    getInstaller := fun _ => .ok installedStrategy,
    confirmAnswer := fun _ _ => false }

/-- Concrete interactive install options. -/
def witnessInteractiveOpts : InstallOptions :=
  { dryRun := false, noInteraction := false, dockerOptions := none }

/-- C8 witness: the amended statement at concrete interactive-decline,
non-interactive, and legacy non-interactive runs. -/
theorem C8_witness :
    (((installExecute c8WitnessEnv "vscode" witnessInteractiveOpts).1
        = .ok ((InstallResult.newSuccess "Deja installe").withVersion "1.85.0")
     ∧ UCEvent.confirmAsked "Voulez-vous reinstaller?"
         ∈ (installExecute c8WitnessEnv "vscode" witnessInteractiveOpts).2
     ∧ UCEvent.installInvoked "vscode"
         ∉ (installExecute c8WitnessEnv "vscode" witnessInteractiveOpts).2)
    ∧ ((∀ q : String,
          UCEvent.confirmAsked q
            ∉ (installExecute c8WitnessEnv "vscode" witnessInstallOpts).2)
     ∧ UCEvent.installInvoked "vscode"
         ∈ (installExecute c8WitnessEnv "vscode" witnessInstallOpts).2)
    ∧ ((legacyVSCodeInstall { noInteraction := true } (fun _ _ => true) c8LegacyEnv).promptShown = false
     ∧ (legacyVSCodeInstall { noInteraction := true } (fun _ _ => true) c8LegacyEnv).proceeded = false
     ∧ (legacyVSCodeInstall { noInteraction := true } (fun _ _ => true) c8LegacyEnv).result
         = LegacyResult.ok "VSCode deja installe")) :=
  C8_amended_reinstall_confirmation c8WitnessEnv "vscode"
    witnessInteractiveOpts witnessInstallOpts
    { id := "vscode", name := "Visual Studio Code", description := "", tags := [] }
    installedStrategy .installed "1.85.0" none
    { noInteraction := true } (fun _ _ => true) c8LegacyEnv "1.85.0"
    rfl rfl rfl rfl rfl rfl rfl rfl rfl

/-! ## Claim C10 -/

/-- C10: the factory returns an unknown-application error for every
identifier other than "docker" and "vscode"; the five other catalog
identifiers are nevertheless registered at startup; and a batch that selects
any of them records, for each one, a failure entry carrying the factory
error, on every platform and regardless of strategy behaviour. -/
theorem C10_unwired_catalog_apps_fail (platform : Platform)
    (oracle : StrategyTag → StrategyBehavior)
    (confirm : String → Bool → Bool) (opts : InstallOptions)
    (appIDs : List AppID) (id : AppID)
    (hmem : id ∈ appIDs) (hunwired : id ∈ unwiredCatalogIDs) :
    (∀ other : AppID, other ≠ "docker" → other ≠ "vscode" →
      ∀ p : Platform,
        factoryGetInstaller p other = .error ("unknown application: " ++ other))
    ∧ (∀ u ∈ unwiredCatalogIDs, (catalogGetByID u).isSome)
    ∧ mapLookup
        (installExecuteMultiple (containerEnv platform oracle confirm) appIDs opts).1
        id
      = some (InstallResult.newFailure
          ("no installer for " ++ id ++ ": unknown application: " ++ id) []) := by
  refine ⟨?_, ?_, ?_⟩
  · intro other h1 h2 p
    simp [factoryGetInstaller, h1, h2]
  · intro u hu
    fin_cases hu <;> rfl
  · have hexec : installExecute (containerEnv platform oracle confirm) id opts
        = (.error ("no installer for " ++ id ++ ": unknown application: " ++ id), []) := by
      fin_cases hunwired <;>
        simp [installExecute, containerEnv, catalogGetByID, catalogApps,
          factoryGetInstaller, Except.map]
    exact installLoop_lookup_of_error (containerEnv platform oracle confirm)
      opts appIDs.length hexec appIDs 0 [] [] hmem

/-- A concrete Ubuntu platform for the witness. -/
def ubuntuPlatform : Platform :=
  { os := .ubuntu, homeDir := "/home/user", username := "user" }

/-- C10 witness: a concrete batch over the five unwired catalog applications
on Ubuntu records the unknown-application failure for "neovim". -/
theorem C10_witness :
    (∀ other : AppID, other ≠ "docker" → other ≠ "vscode" →
      ∀ p : Platform,
        factoryGetInstaller p other = .error ("unknown application: " ++ other))
    ∧ (∀ u ∈ unwiredCatalogIDs, (catalogGetByID u).isSome)
    ∧ mapLookup
        (installExecuteMultiple
          (containerEnv ubuntuPlatform (fun _ => witnessStrategy) (fun _ d => d))
          unwiredCatalogIDs witnessInstallOpts).1
        "neovim"
      = some (InstallResult.newFailure
          "no installer for neovim: unknown application: neovim" []) :=
  C10_unwired_catalog_apps_fail ubuntuPlatform (fun _ => witnessStrategy)
    (fun _ d => d) witnessInstallOpts unwiredCatalogIDs "neovim"
    (by decide) (by decide)

end DevBootstrap
